import Mathlib

/-!
Verification of the graph-editing core of the workflow-builder repository
(`frontend/src/components/WorkflowCanvas.js`).

The component keeps two pieces of React state, `nodes` and `edges`
(`useNodesState` / `useEdgesState`); we model them together as a
`CanvasState`.  Each gesture handler is embedded as a pure function from
the state at invocation time to the new state, paired with the
`onWorkflowChange` notification it fires (if any).

Closure semantics: handlers created by `useCallback` with `[nodes, edges]`
in their dependency array read the current state, so their closure
variables are modelled as the invocation-time state.  The `onDelete` /
`onUpdateConfig` callbacks stored inside `node.data`, however, freeze the
`nodes` / `edges` values of the render that created them; those frozen
values are passed explicitly as `captured…` parameters.  State read
through a `setNodes` / `setEdges` updater function is always current.
-/

namespace WorkflowBuilder

/-- Primitive JSON-style values carried by `config` / `result` maps
(string | number | boolean | null). -/
inductive JVal where
  | str (s : String)
  | num (n : Int)
  | jbool (b : Bool)
  | jnull
deriving DecidableEq, Repr

/-- A JavaScript object of primitive values, as an ordered association
list (JS objects have unique keys and remember insertion order). -/
abbrev Config := List (String × JVal)

/-- Which render site attached a behavior handle (the actual JS values are
closures; the claims only ever inspect presence and provenance). -/
inductive HandleSrc where
  | hydrated
  | dropCreated
deriving DecidableEq, Repr

/-- A canvas position `{x, y}` (numeric; modelled over Int). -/
structure Pos where
  x : Int
  y : Int
deriving DecidableEq, Repr

/-- The `data` object of a React Flow node as this component builds it.
`label`, `type` (the component kind), `config`, `result` are the
serializable fields; `extra` stands for the remaining keys spread in from
the drop payload (`...componentData`); `onDelete` / `onUpdateConfig` are
the behavior handles. -/
structure NodeData where
  label : Option String
  type : Option String
  config : Config
  result : Option Config
  extra : Config
  onDelete : Option HandleSrc
  onUpdateConfig : Option HandleSrc
deriving DecidableEq, Repr

/-- A graph node: `{ id, type, position, data }`.  `type` here is the
React Flow render type (the component sets it to "custom"); the workflow
kind lives in `data.type`. -/
structure Node where
  id : String
  type : Option String
  position : Pos
  data : NodeData
deriving DecidableEq, Repr

/-- A directed edge `{ id, source, target }` (presentation-only fields
such as the line style are not part of the data model). -/
structure Edge where
  id : String
  source : String
  target : String
deriving DecidableEq, Repr

/-- The workflow document exchanged with the owner:
`{ nodes, edges }`. -/
structure Workflow where
  nodes : List Node
  edges : List Edge
deriving DecidableEq, Repr

/-- The component's session state: the `nodes` and `edges` React state. -/
structure CanvasState where
  nodes : List Node
  edges : List Edge
deriving DecidableEq, Repr

def strCustom : String := "custom"

def strOutput : String := "output"

def strFormattedResponse : String := "formatted_response"

def strEmpty : String := ""

def strUnderscore : String := "_"

def strDash : String := "-"

/-- The `SyntaxError` that `JSON.parse` raises on a malformed payload;
no handler catches it. -/
def errMalformedJson : String := "SyntaxError: malformed componentData payload"

/-- The per-node body of `sanitizeNodes` (lines 84-91): spread the node,
spread its data, and set `onDelete` / `onUpdateConfig` to `undefined`. -/
def stripHandles (n : Node) : Node :=
  { n with data := { n.data with onDelete := none, onUpdateConfig := none } }

/-- `sanitizeNodes` (lines 82-92): strip the non-serializable behavior
handles from every node before lifting state to the owner. -/
def sanitizeNodes (ns : List Node) : List Node :=
  ns.map stripHandles

/-- JavaScript `o || d` on an optional string: the default is taken when
the value is absent or falsy (the empty string). -/
def jsOrString (o : Option String) (d : String) : String :=
  match o with
  | some t => if t == strEmpty then d else t
  | none => d

/-- Rehydration of one incoming node (lines 43-76): spread the node,
default `type` to "custom" (`n.type || 'custom'`), spread its data and
attach fresh `onDelete` / `onUpdateConfig` closures. -/
def hydrateNode (n : Node) : Node :=
  { n with
    type := some (jsOrString n.type strCustom),
    data := { n.data with
      onDelete := some HandleSrc.hydrated,
      onUpdateConfig := some HandleSrc.hydrated } }

/-- The `sameNodeSet` guard (lines 36-37): equal length and equal id at
every index.  (`nodes.every((n, i) => n.id === incomingNodes[i].id)` under
the length check is positional comparison, modelled with `zip`.) -/
def sameNodeSet (cur incoming : List Node) : Bool :=
  (cur.length == incoming.length) &&
    (cur.zip incoming).all (fun p => p.1.id == p.2.id)

/-- The `sameEdgeSet` guard (lines 38-39). -/
def sameEdgeSet (cur incoming : List Edge) : Bool :=
  (cur.length == incoming.length) &&
    (cur.zip incoming).all (fun p => p.1.id == p.2.id)

/-- The workflow-sync `useEffect` (lines 30-80): no action when the
incoming document is absent; no action when both id sequences match
positionally; otherwise wholesale replacement with rehydrated nodes and
the incoming edges adopted as-is.  The effect never calls
`onWorkflowChange`, so the notification component is always `none` (kept
for uniformity with the other handlers). -/
def syncWorkflow (workflow : Option Workflow) (s : CanvasState) :
    CanvasState × Option Workflow :=
  match workflow with
  | none => (s, none)
  | some w =>
    if sameNodeSet s.nodes w.nodes && sameEdgeSet s.edges w.edges then
      (s, none)
    else
      ({ nodes := w.nodes.map hydrateNode, edges := w.edges }, none)

/-- Key membership in a JS object, `key in obj`. -/
def containsKey (k : String) (c : Config) : Bool :=
  c.any (fun p => p.1 == k)

/-- JavaScript object spread `{...old, ...patch}`: keys of `old` keep
their position but take the value from `patch` on collision; keys only in
`patch` are appended in `patch` order. -/
def mergeConfig (old patch : Config) : Config :=
  (old.map (fun p =>
    match patch.lookup p.1 with
    | some v => (p.1, v)
    | none => p)) ++
  patch.filter (fun p => !(containsKey p.1 old))

/-- The `setNodes` updater of `onUpdateConfig` (lines 64-69 and 145-150):
map over the nodes, merging `newConfig` into the matching node's
`config`. -/
def updateNodeConfigFn (nodeId : String) (newConfig : Config)
    (ns : List Node) : List Node :=
  ns.map (fun node =>
    if node.id == nodeId then
      { node with data := { node.data with
          config := mergeConfig node.data.config newConfig } }
    else node)

/-- The `onUpdateConfig` handle (lines 63-73, identical copy at 144-154):
merge the partial config via the `setNodes` updater (current state), then
notify with the sanitized updated nodes and the closure-captured
`edges`. -/
def onUpdateConfigHandler (capturedEdges : List Edge) (nodeId : String)
    (newConfig : Config) (s : CanvasState) : CanvasState × Workflow :=
  let updated := updateNodeConfigFn nodeId newConfig s.nodes
  ({ s with nodes := updated },
   { nodes := sanitizeNodes updated, edges := capturedEdges })

/-- The hydrated `onDelete` handle (lines 51-62): filter incident edges
and the node itself out of the store via updater functions (current
state); notify with the sanitized remaining nodes and the
closure-captured `edges`. -/
def hydratedOnDelete (capturedEdges : List Edge) (nodeId : String)
    (s : CanvasState) : CanvasState × Workflow :=
  let filteredEdges :=
    s.edges.filter (fun e => !(e.source == nodeId) && !(e.target == nodeId))
  let updated := s.nodes.filter (fun node => !(node.id == nodeId))
  ({ nodes := updated, edges := filteredEdges },
   { nodes := sanitizeNodes updated, edges := capturedEdges })

/-- The drop-created `onDelete` handle (lines 137-143): filter the store
via updater functions (current state), but compute the notified snapshot
from the closure-captured `nodes` / `edges` — and without sanitizing. -/
def dropOnDelete (capturedNodes : List Node) (capturedEdges : List Edge)
    (id : String) (s : CanvasState) : CanvasState × Workflow :=
  ({ nodes := s.nodes.filter (fun n => !(n.id == id)),
     edges := s.edges.filter (fun e => !(e.source == id) && !(e.target == id)) },
   { nodes := capturedNodes.filter (fun n => !(n.id == id)),
     edges := capturedEdges.filter (fun e => !(e.source == id) && !(e.target == id)) })

/-- `onNodesDelete` (lines 192-199), fired on bulk deletion: filter
incident edges out of the edge store; the node removal itself is applied
by the React Flow library through `onNodesChange`, not here.  The
notification carries the sanitized surviving nodes but the pre-delete
`edges` value from the closure. -/
def onNodesDeleteHandler (deleted : List Node) (s : CanvasState) :
    CanvasState × Workflow :=
  let deletedNodeIds := deleted.map (fun n => n.id)
  ({ nodes := s.nodes,
     edges := s.edges.filter (fun e =>
       !(deletedNodeIds.contains e.source) && !(deletedNodeIds.contains e.target)) },
   { nodes := sanitizeNodes (s.nodes.filter (fun n => !(deletedNodeIds.contains n.id))),
     edges := s.edges })

/-- The parsed `componentData` payload of a drop gesture.  `label` maps
the `label` key, `ctype` a `type` key (which, when present, is spread
over the explicit `type:` field), `configKey` a `config` key (spread over
the explicit `config:` field), `defaultConfig` the `defaultConfig` key,
and `extra` the remaining keys. -/
structure ComponentData where
  label : Option String
  ctype : Option String
  configKey : Option Config
  defaultConfig : Option Config
  extra : Config
deriving DecidableEq, Repr

/-- A drop gesture's inputs.  `typeData` is
`getData('application/reactflow')` (the empty string when unset, since
`getData` never returns undefined); `componentData` is the result of
`JSON.parse` on the raw payload, `none` when the string (including the
empty string returned for a missing key) does not parse.
`screenToFlowPosition` is an external viewport transform, modelled as the
identity on the client coordinates. -/
structure DropEvent where
  typeData : String
  componentType : String
  componentData : Option ComponentData
  clientX : Int
  clientY : Int
deriving DecidableEq, Repr

/-- The node literal built by `onDrop` (lines 127-157).  Field by field:
`id` is componentType + "_" + timestamp; `type` is "custom"; `data` lists
`label`, `type: componentType`, `config: defaultConfig || {}`, then
spreads `componentData` (overriding those three when it carries the same
keys), then the handles, then the `result` ternary (which therefore
always wins). -/
def mkDropNode (ev : DropEvent) (cd : ComponentData) (now : Nat) : Node :=
  { id := ev.componentType ++ strUnderscore ++ toString now,
    type := some strCustom,
    position := { x := ev.clientX, y := ev.clientY },
    data := {
      label := cd.label,
      type := some (cd.ctype.getD ev.componentType),
      config := cd.configKey.getD (cd.defaultConfig.getD []),
      result :=
        if ev.componentType == strOutput then
          some [(strFormattedResponse, JVal.str strEmpty)]
        else none,
      extra := cd.extra,
      onDelete := some HandleSrc.dropCreated,
      onUpdateConfig := some HandleSrc.dropCreated } }

/-- `onDrop` (lines 110-163).  `JSON.parse` runs before the `type` guard
and is not wrapped in try/catch, so a malformed payload escapes as an
exception (`Except.error`).  A falsy `type` returns silently.  Otherwise
the new node is appended unconditionally — there is no duplicate-id
check — and the owner is notified with the sanitized appended sequence
and the current edges. -/
def onDrop (ev : DropEvent) (now : Nat) (s : CanvasState) :
    Except String (CanvasState × Option Workflow) :=
  match ev.componentData with
  | none => Except.error errMalformedJson
  | some cd =>
    if ev.typeData == strEmpty then Except.ok (s, none)
    else
      let newNode := mkDropNode ev cd now
      Except.ok
        ({ s with nodes := s.nodes ++ [newNode] },
         some { nodes := sanitizeNodes (s.nodes ++ [newNode]), edges := s.edges })

/-- Modelled from the spec: the `addEdge` helper is imported from the
external reactflow library, whose source is not part of this repository;
per the spec's Graph Store contract, `addEdge(edge)` appends the edge and
does not dedupe parallel edges. -/
def addEdgeRF (e : Edge) (es : List Edge) : List Edge :=
  es ++ [e]

/-- The connect-mode branch of `onNodeClick` (lines 167-180).  `armed` is
`connectFromRef.current`.  First click arms the ref; a second click on a
different node builds the edge, adds it via `addEdge`, notifies with the
(unsanitized) `nodes` and `[...edges, newEdge]`, and clears the ref; a
second click on the same node matches neither branch, so nothing happens
and the ref stays armed. -/
def onNodeClickConnect (clickedId : String) (now : Nat)
    (armed : Option String) (s : CanvasState) :
    CanvasState × Option String × Option Workflow :=
  match armed with
  | none => (s, some clickedId, none)
  | some a =>
    if a == clickedId then (s, some a, none)
    else
      let newEdge : Edge :=
        { id := a ++ strDash ++ clickedId ++ strDash ++ toString now,
          source := a, target := clickedId }
      ({ s with edges := addEdgeRF newEdge s.edges },
       none,
       some { nodes := s.nodes, edges := s.edges ++ [newEdge] })

/-- The connect-mode branch of `onPaneClick` (lines 184-188): clicking
empty canvas clears `connectFromRef`. -/
def onPaneClickConnect (_armed : Option String) : Option String :=
  none

/-- Projection of a node onto its serializable core (id, render type,
position, label, kind, config, result) — everything but the handles and
the extra spread keys. -/
def nodeCore (n : Node) :
    String × Option String × Pos × Option String × Option String × Config × Option Config :=
  (n.id, n.type, n.position, n.data.label, n.data.type, n.data.config, n.data.result)

/-! Concrete session fixtures used by witnesses and counterexamples. -/

def idA : String := "a"

def idB : String := "b"

def idC : String := "c"

def idE1 : String := "e1"

def idE2 : String := "e2"

def posZero : Pos := { x := 0, y := 0 }

/-- Handle-free node data. -/
def emptyData : NodeData :=
  { label := none, type := none, config := [], result := none, extra := [],
    onDelete := none, onUpdateConfig := none }

/-- Node data as it looks during a live session, with hydrated handles. -/
def handledData : NodeData :=
  { emptyData with
    onDelete := some HandleSrc.hydrated,
    onUpdateConfig := some HandleSrc.hydrated }

def nodeA : Node :=
  { id := idA, type := some strCustom, position := posZero, data := handledData }

def nodeB : Node :=
  { id := idB, type := some strCustom, position := posZero, data := handledData }

def nodeC : Node :=
  { id := idC, type := some strCustom, position := posZero, data := handledData }

def edgeAB : Edge := { id := idE1, source := idA, target := idB }

def edgeBC : Edge := { id := idE2, source := idB, target := idC }

def stateAB : CanvasState := { nodes := [nodeA, nodeB], edges := [edgeAB] }

def stateABC : CanvasState :=
  { nodes := [nodeA, nodeB, nodeC], edges := [edgeAB, edgeBC] }

/-- The sanitized echo of `stateAB`, as the owner would hand it back. -/
def wfEcho : Workflow :=
  { nodes := sanitizeNodes stateAB.nodes, edges := stateAB.edges }

/-- An incoming document node with no `type` field. -/
def noTypeNode : Node :=
  { id := idA, type := none, position := posZero, data := emptyData }

def wfNoType : Workflow := { nodes := [noTypeNode], edges := [] }

def emptyCanvas : CanvasState := { nodes := [], edges := [] }

/-- A drop whose `componentData` payload does not parse (`JSON.parse`
throws, e.g. on the empty string `getData` returns for a missing key). -/
def malformedDropEvent : DropEvent :=
  { typeData := strCustom, componentType := strOutput, componentData := none,
    clientX := 0, clientY := 0 }

/-- A minimal well-formed drop payload. -/
def cdOutput : ComponentData :=
  { label := none, ctype := none, configKey := none, defaultConfig := none,
    extra := [] }

/-- A well-formed drop event creating an output node. -/
def dropEvOutput : DropEvent :=
  { typeData := strCustom, componentType := strOutput,
    componentData := some cdOutput, clientX := 0, clientY := 0 }

/-- The id `onDrop` computes for `dropEvOutput` at timestamp 0. -/
def idOutput0 : String := strOutput ++ strUnderscore ++ toString 0

/-- A state already holding a node whose id collides with the next drop. -/
def stateWithOutput0 : CanvasState :=
  { nodes := [{ id := idOutput0, type := some strCustom, position := posZero,
                data := emptyData }],
    edges := [] }

/-- A config already holding a key, for the merge witness. -/
def cfgOld : Config := [(idC, JVal.num 7)]

/-- A patch colliding on that key and adding another. -/
def cfgPatch : Config := [(idC, JVal.num 9), (idB, JVal.jbool true)]

/-- A node whose config already holds `cfgOld`. -/
def nodeCfg : Node :=
  { id := idA, type := some strCustom, position := posZero,
    data := { emptyData with config := cfgOld } }

/-! Helper lemmas (shared; not tied to a single claim). -/

/-- If two lists have positionally equal ids, the positional `all` check
of the Reconciler evaluates to true. -/
theorem zip_all_of_map_eq {α : Type} (f : α → String) :
    ∀ (l₁ l₂ : List α), l₁.map f = l₂.map f →
      ((l₁.zip l₂).all (fun p => f p.1 == f p.2)) = true := by
  intro l₁
  induction l₁ with
  | nil => intro l₂ _; simp
  | cons a t ih =>
    intro l₂ h
    cases l₂ with
    | nil => simp at h
    | cons b t₂ =>
      simp only [List.map_cons, List.cons.injEq] at h
      simp [List.zip_cons_cons, h.1, ih t₂ h.2]

theorem lookup_append (k : String) (a b : Config) :
    (a ++ b).lookup k =
      match a.lookup k with
      | some v => some v
      | none => b.lookup k := by
  induction a with
  | nil => simp [List.lookup]
  | cons p t ih =>
    obtain ⟨k₀, v₀⟩ := p
    by_cases h : k = k₀
    · subst h; simp [List.lookup]
    · have hb : (k == k₀) = false := beq_eq_false_iff_ne.mpr h
      simp [List.lookup, hb, ih]

/-- Looking a key up in the overwrite-mapped copy of `old` built by
`mergeConfig`. -/
theorem lookup_map_patch (k : String) (patch : Config) :
    ∀ old : Config,
      (old.map (fun p =>
        match patch.lookup p.1 with
        | some v => (p.1, v)
        | none => p)).lookup k =
      match old.lookup k with
      | none => none
      | some v => some ((patch.lookup k).getD v) := by
  intro old
  induction old with
  | nil => simp [List.lookup]
  | cons p t ih =>
    obtain ⟨k₀, v₀⟩ := p
    by_cases h : k = k₀
    · subst h
      cases hp : patch.lookup k <;> simp [List.lookup, hp, ih]
    · have hb : (k == k₀) = false := beq_eq_false_iff_ne.mpr h
      cases hp : patch.lookup k₀ <;> simp [List.lookup, hp, hb, ih]

/-- Looking a key up in the keys-only-in-`patch` tail built by
`mergeConfig`. -/
theorem lookup_filter_keys (k : String) (old : Config) :
    ∀ patch : Config,
      (patch.filter (fun p => !(containsKey p.1 old))).lookup k =
      if containsKey k old then none else patch.lookup k := by
  intro patch
  induction patch with
  | nil => simp [List.lookup]
  | cons p t ih =>
    obtain ⟨k₀, v₀⟩ := p
    by_cases h : k = k₀
    · subst h
      cases hc : containsKey k old <;> simp [List.filter, List.lookup, hc, ih]
    · have hb : (k == k₀) = false := beq_eq_false_iff_ne.mpr h
      cases hc : containsKey k₀ old <;>
        simp [List.filter, List.lookup, hb, hc, ih]

theorem containsKey_eq_isSome (k : String) :
    ∀ c : Config, containsKey k c = (c.lookup k).isSome := by
  intro c
  induction c with
  | nil => simp [containsKey, List.lookup]
  | cons p t ih =>
    obtain ⟨k₀, v₀⟩ := p
    by_cases h : k = k₀
    · subst h; simp [containsKey, List.lookup]
    · have hb : (k == k₀) = false := beq_eq_false_iff_ne.mpr h
      have hb2 : (k₀ == k) = false :=
        beq_eq_false_iff_ne.mpr (fun hh => h hh.symm)
      simp only [containsKey] at ih
      simp [containsKey, List.lookup, hb, hb2, ih]

/-- The JS-spread merge looks up like: colliding keys take the patch
value, all other keys keep the old value. -/
theorem lookup_mergeConfig (k : String) (old patch : Config) :
    (mergeConfig old patch).lookup k =
      if containsKey k patch then patch.lookup k else old.lookup k := by
  rw [mergeConfig, lookup_append, lookup_map_patch, lookup_filter_keys]
  cases ho : old.lookup k <;> cases hp : patch.lookup k <;>
    simp [containsKey_eq_isSome, ho, hp]

/-- `updateNodeConfig` leaves the node list unchanged when no node has
the given id. -/
theorem updateNodeConfigFn_noop (nodeId : String) (patch : Config) :
    ∀ ms : List Node, (∀ m ∈ ms, m.id ≠ nodeId) →
      updateNodeConfigFn nodeId patch ms = ms := by
  intro ms
  induction ms with
  | nil => intro _; rfl
  | cons m t ih =>
    intro h
    have h1 : m.id ≠ nodeId := h m (List.mem_cons_self m t)
    have h2 := ih (fun x hx => h x (List.mem_cons_of_mem m hx))
    simp only [updateNodeConfigFn] at h2 ⊢
    rw [List.map_cons, h2, if_neg (by simp [h1])]

/-! Claim theorems. -/

/-- C1: every delete path — the hydrated per-node delete handle, the
drop-created delete handle, and bulk deletion via `onNodesDelete` —
leaves the edge store with no edge whose source or target is a deleted
node id, within the single synchronous handler step. -/
theorem deleteNode_cascades_edges (s : CanvasState) (capN : List Node)
    (capE : List Edge) (nid : String) (deleted : List Node) :
    (∀ e ∈ (hydratedOnDelete capE nid s).1.edges,
      e.source ≠ nid ∧ e.target ≠ nid) ∧
    (∀ e ∈ (dropOnDelete capN capE nid s).1.edges,
      e.source ≠ nid ∧ e.target ≠ nid) ∧
    (∀ e ∈ (onNodesDeleteHandler deleted s).1.edges, ∀ d ∈ deleted,
      e.source ≠ d.id ∧ e.target ≠ d.id) := by
  refine ⟨?_, ?_, ?_⟩
  · intro e he
    simp only [hydratedOnDelete, List.mem_filter, Bool.and_eq_true,
      Bool.not_eq_eq_eq_not, Bool.not_true, beq_eq_false_iff_ne] at he
    exact he.2
  · intro e he
    simp only [dropOnDelete, List.mem_filter, Bool.and_eq_true,
      Bool.not_eq_eq_eq_not, Bool.not_true, beq_eq_false_iff_ne] at he
    exact he.2
  · intro e he d hd
    simp only [onNodesDeleteHandler, List.mem_filter, Bool.and_eq_true,
      Bool.not_eq_eq_eq_not, Bool.not_true, List.contains, List.elem_eq_mem,
      decide_eq_false_iff_not, List.mem_map] at he
    constructor
    · intro hEq
      exact he.2.1 ⟨d, hd, hEq.symm⟩
    · intro hEq
      exact he.2.2 ⟨d, hd, hEq.symm⟩

/-- C1 witness: in the graph a→b, b→c, deleting node a (single and bulk)
leaves the b→c edge, which indeed does not touch a. -/
theorem deleteNode_cascades_edges_witness :
    (edgeBC.source ≠ idA ∧ edgeBC.target ≠ idA) ∧
    (edgeBC.source ≠ nodeA.id ∧ edgeBC.target ≠ nodeA.id) :=
  ⟨(deleteNode_cascades_edges stateABC [] [] idA []).1 edgeBC (by decide),
   (deleteNode_cascades_edges stateABC [] [] idA [nodeA]).2.2 edgeBC
     (by decide) nodeA (by decide)⟩

/-- C2: evaluation at a failing input.  Deleting node a from the session
a, b with edge a→b empties the edge store correctly, yet the snapshot
handed to `onWorkflowChange` still contains the a→b edge: the handlers
notify with the closure-captured pre-delete `edges`, not the
post-mutation sequence.  Shown for both the hydrated delete handle (with
the freshest possible capture, the current edges) and bulk delete. -/
theorem deleteNode_notification_keeps_stale_edges :
    ((hydratedOnDelete stateAB.edges idA stateAB).1.edges = []) ∧
    ((hydratedOnDelete stateAB.edges idA stateAB).2.edges = [edgeAB]) ∧
    edgeAB.source = idA ∧
    ((onNodesDeleteHandler [nodeA] stateAB).1.edges = []) ∧
    ((onNodesDeleteHandler [nodeA] stateAB).2.edges = [edgeAB]) := by
  decide

/-- C3: evaluation at failing inputs.  Two notification sites skip
`sanitizeNodes`: the connect-mode click-connect (line 176) and the
drop-created node's delete handle (line 142).  In both, the notified
snapshot still carries the behavior handles on its nodes. -/
theorem notification_carries_behavior_handles :
    (((onNodeClickConnect idB 0 (some idC) stateAB).2.2).map
        (fun wf => wf.nodes.map (fun n => n.data.onDelete))
      = some [some HandleSrc.hydrated, some HandleSrc.hydrated]) ∧
    ((dropOnDelete stateAB.nodes stateAB.edges idA stateAB).2.nodes.map
        (fun n => n.data.onDelete) = [some HandleSrc.hydrated]) := by
  decide

/-- C4: the Reconciler is a no-op, with no notification, when the
incoming document is absent or when both id sequences match the session
state positionally. -/
theorem reconciler_noop_on_match (s : CanvasState) (w : Workflow)
    (hn : s.nodes.map (fun n => n.id) = w.nodes.map (fun n => n.id))
    (he : s.edges.map (fun e => e.id) = w.edges.map (fun e => e.id)) :
    syncWorkflow (some w) s = (s, none) ∧
    syncWorkflow none s = (s, none) := by
  have hln : s.nodes.length = w.nodes.length := by
    have := congrArg List.length hn
    simpa using this
  have hle : s.edges.length = w.edges.length := by
    have := congrArg List.length he
    simpa using this
  have h1 : sameNodeSet s.nodes w.nodes = true := by
    simp [sameNodeSet, hln,
      zip_all_of_map_eq (fun n => n.id) s.nodes w.nodes hn]
  have h2 : sameEdgeSet s.edges w.edges = true := by
    simp [sameEdgeSet, hle,
      zip_all_of_map_eq (fun e => e.id) s.edges w.edges he]
  exact ⟨by simp [syncWorkflow, h1, h2], rfl⟩

/-- C4 witness: re-supplying the sanitized echo of the current session
(same ids in the same order) triggers no mutation and no notification. -/
theorem reconciler_noop_on_match_witness :
    syncWorkflow (some wfEcho) stateAB = (stateAB, none) ∧
    syncWorkflow none stateAB = (stateAB, none) :=
  reconciler_noop_on_match stateAB wfEcho (by decide) (by decide)

/-- C5: `sanitizeNodes` is idempotent, leaves no behavior handle on any
element of its result, and preserves length, order, and every node's id,
render type, position, label, kind, config and result (the `nodeCore`
projection at every index). -/
theorem sanitizeNodes_idempotent_and_preserving (ns : List Node) :
    sanitizeNodes (sanitizeNodes ns) = sanitizeNodes ns ∧
    (∀ n ∈ sanitizeNodes ns,
      n.data.onDelete = none ∧ n.data.onUpdateConfig = none) ∧
    (sanitizeNodes ns).length = ns.length ∧
    ∀ i : Nat, ((sanitizeNodes ns)[i]?).map nodeCore = (ns[i]?).map nodeCore := by
  refine ⟨?_, ?_, ?_, ?_⟩
  · simp only [sanitizeNodes, List.map_map]
    rfl
  · intro n hn
    simp only [sanitizeNodes, List.mem_map] at hn
    obtain ⟨m, _, rfl⟩ := hn
    exact ⟨rfl, rfl⟩
  · simp [sanitizeNodes]
  · intro i
    simp only [sanitizeNodes, List.getElem?_map]
    cases ns[i]? <;> rfl

/-- C5 witness: the membership-guarded conjunct applied to a concrete
handled node. -/
theorem sanitizeNodes_idempotent_and_preserving_witness :
    (stripHandles nodeA).data.onDelete = none ∧
    (stripHandles nodeA).data.onUpdateConfig = none :=
  (sanitizeNodes_idempotent_and_preserving [nodeA]).2.1
    (stripHandles nodeA) (by decide)

/-- C6 counterexample: an incoming node with no `type` field is not
adopted verbatim — rehydration rewrites its `type` to "custom"
(`n.type || 'custom'`), so not every other incoming field is preserved. -/
theorem reconciler_defaults_missing_type :
    wfNoType.nodes.map (fun n => n.type) = [none] ∧
    (syncWorkflow (some wfNoType) emptyCanvas).1.nodes.map (fun n => n.type)
      = [some strCustom] := by
  decide

/-- C6 (amended): when the id sequences differ, the Reconciler replaces
the session graph wholesale: the incoming edges are adopted as-is, and
every incoming node is adopted with fresh hydrated behavior handles,
its `type` defaulted to "custom" when absent or empty, and every other
incoming field (id, position, label, kind, config, result, remaining
data keys) preserved verbatim. -/
theorem reconciler_replaces_with_fresh_handles (w : Workflow)
    (s : CanvasState)
    (hdiff : (sameNodeSet s.nodes w.nodes && sameEdgeSet s.edges w.edges)
      = false) :
    (syncWorkflow (some w) s).1.nodes = w.nodes.map hydrateNode ∧
    (syncWorkflow (some w) s).1.edges = w.edges ∧
    ∀ n : Node,
      (hydrateNode n).id = n.id ∧
      (hydrateNode n).type = some (jsOrString n.type strCustom) ∧
      (hydrateNode n).position = n.position ∧
      (hydrateNode n).data.label = n.data.label ∧
      (hydrateNode n).data.type = n.data.type ∧
      (hydrateNode n).data.config = n.data.config ∧
      (hydrateNode n).data.result = n.data.result ∧
      (hydrateNode n).data.extra = n.data.extra ∧
      (hydrateNode n).data.onDelete = some HandleSrc.hydrated ∧
      (hydrateNode n).data.onUpdateConfig = some HandleSrc.hydrated := by
  refine ⟨by simp [syncWorkflow, hdiff], by simp [syncWorkflow, hdiff], ?_⟩
  intro n
  exact ⟨rfl, rfl, rfl, rfl, rfl, rfl, rfl, rfl, rfl, rfl⟩

/-- C6 witness: the amended replacement behavior at a concrete differing
document. -/
theorem reconciler_replaces_with_fresh_handles_witness :
    (syncWorkflow (some wfNoType) emptyCanvas).1.nodes
      = wfNoType.nodes.map hydrateNode ∧
    (syncWorkflow (some wfNoType) emptyCanvas).1.edges = wfNoType.edges :=
  ⟨(reconciler_replaces_with_fresh_handles wfNoType emptyCanvas (by decide)).1,
   (reconciler_replaces_with_fresh_handles wfNoType emptyCanvas (by decide)).2.1⟩

/-- C7: the config-merge semantics of `updateNodeConfig`: a key in the
patch overwrites, all other keys are kept (the lookup characterization of
the JS spread); applying a:=1 then b:=2 to the target node leaves a
config containing both; the operation touches only the state's node list
through the updater; and it is a no-op when no node carries the id. -/
theorem updateNodeConfig_merges (ns : List Node) (nodeId k : String)
    (old patch : Config) (capE : List Edge) (sc : CanvasState) (i : Nat)
    (n : Node) (hget : ns[i]? = some n) (hid : n.id = nodeId) :
    ((mergeConfig old patch).lookup k =
      if containsKey k patch then patch.lookup k else old.lookup k) ∧
    (((updateNodeConfigFn nodeId [(idB, JVal.num 2)]
        (updateNodeConfigFn nodeId [(idA, JVal.num 1)] ns))[i]?).map
        (fun m => (m.data.config.lookup idA, m.data.config.lookup idB))
      = some (some (JVal.num 1), some (JVal.num 2))) ∧
    ((onUpdateConfigHandler capE nodeId patch sc).1.nodes
      = updateNodeConfigFn nodeId patch sc.nodes) ∧
    (∀ ms : List Node, (∀ m ∈ ms, m.id ≠ nodeId) →
      updateNodeConfigFn nodeId patch ms = ms) := by
  refine ⟨lookup_mergeConfig k old patch, ?_, rfl,
    updateNodeConfigFn_noop nodeId patch⟩
  simp only [updateNodeConfigFn, List.getElem?_map, hget, Option.map_some',
    hid]
  simp [lookup_mergeConfig, containsKey, idA, idB, List.lookup]

/-- C7 witness: the merge characterization and the a-then-b example at a
concrete node whose config already holds another key. -/
theorem updateNodeConfig_merges_witness :
    ((mergeConfig cfgOld cfgPatch).lookup idC =
      if containsKey idC cfgPatch then cfgPatch.lookup idC
      else cfgOld.lookup idC) ∧
    (((updateNodeConfigFn idA [(idB, JVal.num 2)]
        (updateNodeConfigFn idA [(idA, JVal.num 1)] [nodeCfg]))[0]?).map
        (fun m => (m.data.config.lookup idA, m.data.config.lookup idB))
      = some (some (JVal.num 1), some (JVal.num 2))) :=
  ⟨(updateNodeConfig_merges [nodeCfg] idA idC cfgOld cfgPatch [] stateAB 0
      nodeCfg rfl rfl).1,
   (updateNodeConfig_merges [nodeCfg] idA idC cfgOld cfgPatch [] stateAB 0
      nodeCfg rfl rfl).2.1⟩

/-- C8: the connect-mode state machine: from Idle, clicking node a arms
the machine without creating an edge; then clicking a different node b
appends exactly one new edge (a, b) and returns to Idle; clicking a again
creates zero new edges; clicking empty canvas creates zero new edges and
resets to Idle. -/
theorem connectMode_gesture_props (s : CanvasState) (a b : String)
    (n1 n2 : Nat) (hab : a ≠ b) :
    onNodeClickConnect a n1 none s = (s, some a, none) ∧
    (onNodeClickConnect b n2 (some a) s).1.edges =
      s.edges ++ [{ id := a ++ strDash ++ b ++ strDash ++ toString n2,
                    source := a, target := b }] ∧
    (onNodeClickConnect b n2 (some a) s).2.1 = none ∧
    (onNodeClickConnect a n2 (some a) s).1 = s ∧
    (onNodeClickConnect a n2 (some a) s).2.1 = some a ∧
    onPaneClickConnect (some a) = none := by
  have hb : (a == b) = false := beq_eq_false_iff_ne.mpr hab
  refine ⟨rfl, ?_, ?_, ?_, ?_, rfl⟩ <;>
    simp [onNodeClickConnect, addEdgeRF, hb]

/-- C8 witness: the gesture properties at concrete nodes a and b. -/
theorem connectMode_gesture_props_witness :
    onNodeClickConnect idA 0 none stateAB = (stateAB, some idA, none) ∧
    (onNodeClickConnect idB 1 (some idA) stateAB).2.1 = none :=
  ⟨(connectMode_gesture_props stateAB idA idB 0 1 (by decide)).1,
   (connectMode_gesture_props stateAB idA idB 0 1 (by decide)).2.2.1⟩

/-- C9: evaluation at the failing input.  A drop whose `componentData`
payload does not parse is not silently aborted: `JSON.parse` runs before
the type guard and outside any try/catch, so the exception escapes the
handler. -/
theorem onDrop_throws_on_malformed_payload :
    onDrop malformedDropEvent 0 stateAB = Except.error errMalformedJson :=
  rfl

/-- C10 counterexample: dropping a component whose computed id already
exists in the store is not ignored — the node sequence changes from one
node with that id to two. -/
theorem duplicate_id_create_appends :
    stateWithOutput0.nodes.map (fun n => n.id) = [idOutput0] ∧
    ((onDrop dropEvOutput 0 stateWithOutput0).toOption.map
        (fun r => r.1.nodes.map (fun n => n.id)))
      = some [idOutput0, idOutput0] := by
  decide

/-- C10 (amended): a drop-create with a well-formed payload and a truthy
type appends the new node unconditionally — no duplicate-id check exists,
the existing node does not win, and no error is raised; a create whose id
is already present therefore yields two nodes with that id. -/
theorem onDrop_appends_unconditionally (s : CanvasState) (ev : DropEvent)
    (now : Nat) (cd : ComponentData) (hcd : ev.componentData = some cd)
    (hty : ev.typeData ≠ strEmpty) :
    onDrop ev now s = Except.ok
      ({ s with nodes := s.nodes ++ [mkDropNode ev cd now] },
       some { nodes := sanitizeNodes (s.nodes ++ [mkDropNode ev cd now]),
              edges := s.edges }) := by
  have hb : (ev.typeData == strEmpty) = false := beq_eq_false_iff_ne.mpr hty
  simp [onDrop, hcd, hb]

/-- C10 witness: the unconditional append at the concrete colliding
input. -/
theorem onDrop_appends_unconditionally_witness :
    onDrop dropEvOutput 0 stateWithOutput0 = Except.ok
      ({ stateWithOutput0 with
          nodes := stateWithOutput0.nodes ++ [mkDropNode dropEvOutput cdOutput 0] },
       some { nodes := sanitizeNodes
                (stateWithOutput0.nodes ++ [mkDropNode dropEvOutput cdOutput 0]),
              edges := stateWithOutput0.edges }) :=
  onDrop_appends_unconditionally stateWithOutput0 dropEvOutput 0 cdOutput
    rfl (by decide)

end WorkflowBuilder
